import Mathlib

/-!
Verification of the ticker-resolution engine of the STOCK-VALUATION-WEBSITE
repository (`lib/tickerResolution.js` and `lib/stringUtils.js`, the latter
reproduced in `QUICK_REFERENCE.md`).

The JavaScript code is shallowly embedded: strings are `String`, JS numbers
appearing here (confidence scores, similarity ratios) are `ℚ`, timestamps are
`ℕ` (with signed arithmetic `ℤ` where the source subtracts them), the mutable
module-level cache is threaded explicitly as a value, and every fallible
adapter returns an `Option`.  The NaN produced by JS division `0/0` is
modelled as `none`.  Telemetry timestamps and log output are not modelled.
-/

/- Batteries marks the `Rat` arithmetic operations `@[irreducible]`, which
blocks `decide` on concrete rational computations; restore the default
reducibility for this file (the kernel is unaffected by this hint). -/
attribute [local semireducible] Rat.mul Rat.inv Rat.add Rat.sub

/-! ## String utilities (`lib/stringUtils.js`) -/

/-- The characters matched by the JS `\s` class (ASCII part); all strings of
interest here are ASCII. -/
def isJsWhitespace (c : Char) : Bool :=
  c = ' ' || c = '\t' || c = '\n' || c = '\r' || c = '\x0b' || c = '\x0c'

/-- `[A-Z]` character class. -/
def isUpperAlpha (c : Char) : Bool :=
  'A' ≤ c && c ≤ 'Z'

/-- JS `String.prototype.trim`. -/
def jsTrim (s : String) : String :=
  String.mk (((s.data.dropWhile isJsWhitespace).reverse.dropWhile isJsWhitespace).reverse)

/-- JS `String.prototype.toUpperCase` (ASCII). -/
def jsToUpper (s : String) : String :=
  String.mk (s.data.map Char.toUpper)

/-- JS `String.prototype.toLowerCase` (ASCII). -/
def jsToLower (s : String) : String :=
  String.mk (s.data.map Char.toLower)

/-- The punctuation class removed by `normalizeString`: `[.,&'"\-()]`. -/
def isRemovedPunct (c : Char) : Bool :=
  c = '.' || c = ',' || c = '&' || c = '\'' || c = '"' || c = '-' || c = '(' || c = ')'

/-- Helper for `collapseWs`; the flag records whether we are inside a
whitespace run whose single replacement space has already been emitted. -/
def collapseWsAux : Bool → List Char → List Char
  | _, [] => []
  | inWs, c :: cs =>
    if isJsWhitespace c then
      if inWs then collapseWsAux true cs else ' ' :: collapseWsAux true cs
    else c :: collapseWsAux false cs

/-- `replace(/\s+/g, ' ')`: collapse each whitespace run to a single space. -/
def collapseWs (l : List Char) : List Char :=
  collapseWsAux false l

/-- `normalizeString` from `lib/stringUtils.js`: trim, lowercase, strip the
punctuation set, collapse whitespace, then remove all remaining whitespace.
(The JS guard for non-string input cannot arise in the typed embedding.) -/
def normalizeString (input : String) : String :=
  let t := jsTrim input
  let lowered := jsToLower t
  let noPunct := String.mk (lowered.data.filter (fun c => !(isRemovedPunct c)))
  let collapsed := String.mk (collapseWs noPunct.data)
  let noWs := String.mk (collapsed.data.filter (fun c => !(isJsWhitespace c)))
  jsTrim noWs

/-- One row-update of the Levenshtein dynamic-programming matrix: given the
previous row split as `diag` (entry `i-1`) and `above :: rest` (entries from
`i` on), and the freshly computed entry `left` (new row, entry `i-1`),
produce the rest of the new row. -/
def levRow (c2 : Char) : List Char → Nat → Nat → List Nat → List Nat
  | [], _, _, _ => []
  | _ :: _, _, _, [] => []
  | c1 :: cs1, left, diag, above :: rest =>
    let cost := if c1 = c2 then 0 else 1
    let v := min (min (left + 1) (above + 1)) (diag + cost)
    v :: levRow c2 cs1 v above rest

/-- `levenshteinDistance` from `lib/stringUtils.js`: the classic
(`|str1|+1`)×(`|str2|+1`) dynamic-programming table, computed row by row;
the result is the bottom-right entry `matrix[len2][len1]`. -/
def levenshteinDistance (str1 str2 : String) : Nat :=
  let cs1 := str1.data
  let initRow := List.range (cs1.length + 1)
  let final := str2.data.foldl
    (fun (st : List Nat × Nat) c2 =>
      match st.1 with
      | d :: rest => ((st.2 + 1) :: levRow c2 cs1 (st.2 + 1) d rest, st.2 + 1)
      | [] => ([], st.2 + 1))
    (initRow, 0)
  final.1.getLastD 0

/-- `calculateSimilarity` from `lib/stringUtils.js`: `1 - distance/maxLen`.
The JS code has no guard: when both strings are empty it computes `0/0`,
i.e. `NaN`, modelled as `none`. -/
def calculateSimilarity (str1 str2 : String) : Option ℚ :=
  let distance := levenshteinDistance str1 str2
  let maxLen := max str1.length str2.length
  if maxLen = 0 then none
  else some (1 - (distance : ℚ) / (maxLen : ℚ))

/-- `isValidTickerFormat` from `lib/stringUtils.js`: regex
`^[A-Z]{1,5}(?:\.[A-Z]{1,2})?$` — here the dot is mandatory inside the
optional suffix group. -/
def isValidTickerFormat (ticker : String) : Bool :=
  let cs := ticker.data
  (List.range 5).any fun i =>
    let k := i + 1
    decide (k ≤ cs.length) && (cs.take k).all isUpperAlpha &&
      (match cs.drop k with
       | [] => true
       | '.' :: rest => decide (1 ≤ rest.length) && decide (rest.length ≤ 2) && rest.all isUpperAlpha
       | _ => false)

/-! ## Data model (`lib/tickerResolution.js`) -/

/-- A single resolution record as returned by the strategies
(`{ticker, exchange, name, confidence, resolvedFrom}`); `ticker` is an
`Option` because the not-found record carries `ticker: null`. -/
structure SymbolRec where
  ticker : Option String
  exchange : Option String
  name : Option String
  confidence : ℚ
  resolvedFrom : String
deriving DecidableEq

/-- Telemetry event attached to every result; the `timestamp` field of the
source is not modelled (results are compared up to timestamps). -/
structure TelemetryEvent where
  type : String
  input : String
  ticker : Option String := none
  confidence : Option ℚ := none
  resolvedFrom : Option String := none
  matchCount : Option Nat := none
  candidates : List (Option String × ℚ) := []
deriving DecidableEq

/-- Either a single resolution record or the ambiguous shape
`{matches, confidence: 'ambiguous', resolvedFrom}`. -/
inductive ResolveOut where
  | single (r : SymbolRec)
  | ambig (matchList : List SymbolRec) (resolvedFrom : String)
deriving DecidableEq

/-- The full return value of `resolveTickerOrCompanyName`. -/
structure ResolutionResult where
  out : ResolveOut
  telemetry : TelemetryEvent
deriving DecidableEq

/-- A catalog entry of `localTickerMapping`. -/
structure TickerInfo where
  ticker : String
  exchange : String
  confidence : ℚ
deriving DecidableEq

/-- An entry of the resolution cache: `{data, timestamp}`.  In JS the cache
stores the result object by reference (including its telemetry field); the
model stores the record itself. -/
structure CacheEntry where
  data : SymbolRec
  timestamp : Nat
deriving DecidableEq

/-- The module-level `resolutionCache` `Map`, modelled as an insertion-ordered
association list threaded through the operations. -/
abbrev Cache := List (String × CacheEntry)

/-- Exact-key lookup in an association list (JS `Map.get` / object property
access). -/
def assocLookup {α : Type} : List (String × α) → String → Option α
  | [], _ => none
  | (k', v) :: rest, k => if k' = k then some v else assocLookup rest k

/-- JS `Map.set`: replace in place if the key is present, else append. -/
def mapSet : Cache → String → CacheEntry → Cache
  | [], k, v => [(k, v)]
  | (k', v') :: rest, k, v =>
    if k' = k then (k, v) :: rest else (k', v') :: mapSet rest k v

/-- JS `Map.delete`. -/
def mapDelete (m : Cache) (k : String) : Cache :=
  m.filter (fun p => p.1 ≠ k)

/-- `CACHE_TTL_MS = 24 * 60 * 60 * 1000`. -/
def CACHE_TTL_MS : Nat := 24 * 60 * 60 * 1000

/-! ## The static catalog `localTickerMapping`

The source object literal repeats the three NVIDIA keys verbatim (lines
34-36 and 77-80); duplicate keys of a JS object literal collapse to a single
property (first position, last value), so they appear once here, in first
occurrence order. -/

set_option maxHeartbeats 2000000 in
def localTickerMapping : List (String × TickerInfo) := [
  ("apple", ⟨"AAPL", "NASDAQ", 99/100⟩),
  ("apple inc", ⟨"AAPL", "NASDAQ", 99/100⟩),
  ("apple corporation", ⟨"AAPL", "NASDAQ", 99/100⟩),
  ("microsoft", ⟨"MSFT", "NASDAQ", 99/100⟩),
  ("microsoft corporation", ⟨"MSFT", "NASDAQ", 99/100⟩),
  ("msft", ⟨"MSFT", "NASDAQ", 99/100⟩),
  ("nvidia", ⟨"NVDA", "NASDAQ", 99/100⟩),
  ("nvidia corporation", ⟨"NVDA", "NASDAQ", 99/100⟩),
  ("nvda", ⟨"NVDA", "NASDAQ", 99/100⟩),
  ("google", ⟨"GOOGL", "NASDAQ", 95/100⟩),
  ("alphabet", ⟨"GOOGL", "NASDAQ", 99/100⟩),
  ("alphabet inc", ⟨"GOOGL", "NASDAQ", 99/100⟩),
  ("googl", ⟨"GOOGL", "NASDAQ", 99/100⟩),
  ("tesla", ⟨"TSLA", "NASDAQ", 99/100⟩),
  ("tesla inc", ⟨"TSLA", "NASDAQ", 99/100⟩),
  ("tsla", ⟨"TSLA", "NASDAQ", 99/100⟩),
  ("amazon", ⟨"AMZN", "NASDAQ", 99/100⟩),
  ("amazon.com", ⟨"AMZN", "NASDAQ", 99/100⟩),
  ("amzn", ⟨"AMZN", "NASDAQ", 99/100⟩),
  ("facebook", ⟨"META", "NASDAQ", 95/100⟩),
  ("meta", ⟨"META", "NASDAQ", 99/100⟩),
  ("meta platforms", ⟨"META", "NASDAQ", 99/100⟩),
  ("jpmorgan", ⟨"JPM", "NYSE", 95/100⟩),
  ("jpmorgan chase", ⟨"JPM", "NYSE", 99/100⟩),
  ("jpm", ⟨"JPM", "NYSE", 99/100⟩),
  ("berkshire", ⟨"BRK.B", "NYSE", 95/100⟩),
  ("berkshire hathaway", ⟨"BRK.B", "NYSE", 99/100⟩),
  ("brk", ⟨"BRK.B", "NYSE", 95/100⟩),
  ("visa", ⟨"V", "NYSE", 99/100⟩),
  ("netflix", ⟨"NFLX", "NASDAQ", 99/100⟩),
  ("netflix inc", ⟨"NFLX", "NASDAQ", 99/100⟩),
  ("nflx", ⟨"NFLX", "NASDAQ", 99/100⟩),
  ("intel", ⟨"INTC", "NASDAQ", 99/100⟩),
  ("intel corporation", ⟨"INTC", "NASDAQ", 99/100⟩),
  ("intc", ⟨"INTC", "NASDAQ", 99/100⟩),
  ("amd", ⟨"AMD", "NASDAQ", 99/100⟩),
  ("advanced micro devices", ⟨"AMD", "NASDAQ", 99/100⟩),
  ("oracle", ⟨"ORCL", "NYSE", 99/100⟩),
  ("oracle corporation", ⟨"ORCL", "NYSE", 99/100⟩),
  ("orcl", ⟨"ORCL", "NYSE", 99/100⟩),
  ("salesforce", ⟨"CRM", "NYSE", 99/100⟩),
  ("salesforce inc", ⟨"CRM", "NYSE", 99/100⟩),
  ("crm", ⟨"CRM", "NYSE", 99/100⟩),
  ("adobe", ⟨"ADBE", "NASDAQ", 99/100⟩),
  ("adobe systems", ⟨"ADBE", "NASDAQ", 99/100⟩),
  ("adbe", ⟨"ADBE", "NASDAQ", 99/100⟩),
  ("accenture", ⟨"ACN", "NYSE", 99/100⟩),
  ("acn", ⟨"ACN", "NYSE", 99/100⟩),
  ("servicenow", ⟨"NOW", "NYSE", 99/100⟩),
  ("now", ⟨"NOW", "NYSE", 99/100⟩),
  ("datadog", ⟨"DDOG", "NASDAQ", 99/100⟩),
  ("ddog", ⟨"DDOG", "NASDAQ", 99/100⟩),
  ("crowdstrike", ⟨"CRWD", "NASDAQ", 99/100⟩),
  ("crwd", ⟨"CRWD", "NASDAQ", 99/100⟩),
  ("snowflake", ⟨"SNOW", "NYSE", 99/100⟩),
  ("snow", ⟨"SNOW", "NYSE", 99/100⟩),
  ("paypal", ⟨"PYPL", "NASDAQ", 99/100⟩),
  ("pypl", ⟨"PYPL", "NASDAQ", 99/100⟩),
  ("square", ⟨"SQ", "NYSE", 95/100⟩),
  ("block inc", ⟨"SQ", "NYSE", 99/100⟩),
  ("sq", ⟨"SQ", "NYSE", 99/100⟩),
  ("uber", ⟨"UBER", "NYSE", 99/100⟩),
  ("uber technologies", ⟨"UBER", "NYSE", 99/100⟩),
  ("lyft", ⟨"LYFT", "NASDAQ", 99/100⟩),
  ("airbnb", ⟨"ABNB", "NASDAQ", 99/100⟩),
  ("abnb", ⟨"ABNB", "NASDAQ", 99/100⟩),
  ("doordash", ⟨"DASH", "NYSE", 99/100⟩),
  ("dash", ⟨"DASH", "NYSE", 99/100⟩),
  ("shopify", ⟨"SHOP", "NYSE", 99/100⟩),
  ("shop", ⟨"SHOP", "NYSE", 99/100⟩),
  ("spotify", ⟨"SPOT", "NYSE", 99/100⟩),
  ("spot", ⟨"SPOT", "NYSE", 99/100⟩)]

/-! ## Cache operations and ticker detection -/

/-- `isTickerSymbol`: regex `^[A-Z]{1,5}(\.?[A-Z]{1,2})?$`.  Note the `\.?`
of the source: the dot inside the suffix group is itself optional, so the
suffix can be 1-2 plain letters. -/
def isTickerSymbol (input : String) : Bool :=
  let cs := input.data
  (List.range 5).any fun i =>
    let k := i + 1
    decide (k ≤ cs.length) && (cs.take k).all isUpperAlpha &&
      (match cs.drop k with
       | [] => true
       | '.' :: rest => decide (1 ≤ rest.length) && decide (rest.length ≤ 2) && rest.all isUpperAlpha
       | rest => decide (1 ≤ rest.length) && decide (rest.length ≤ 2) && rest.all isUpperAlpha)

/-- `getCachedResolution`: fresh hit returns the stored data; a stale entry is
deleted on read; returns the (possibly updated) cache alongside. -/
def getCachedResolution (cache : Cache) (normalizedInput : String) (now : Nat) :
    Option SymbolRec × Cache :=
  match assocLookup cache normalizedInput with
  | some cached =>
    if (now : ℤ) - (cached.timestamp : ℤ) < (CACHE_TTL_MS : ℤ) then
      (some cached.data, cache)
    else
      (none, mapDelete cache normalizedInput)
  | none => (none, cache)

/-- `setCacheResolution`: upsert with `timestamp = now`. -/
def setCacheResolution (cache : Cache) (normalizedInput : String) (resolution : SymbolRec)
    (now : Nat) : Cache :=
  mapSet cache normalizedInput ⟨resolution, now⟩

/-- An entry of `getCacheStats().entries`; `age = now - timestamp` is signed
in JS, hence `ℤ`. -/
structure CacheStatsEntry where
  input : String
  ticker : Option String
  age : ℤ
deriving DecidableEq

/-- The value of `getCacheStats()`. -/
structure CacheStats where
  size : Nat
  entries : List CacheStatsEntry
deriving DecidableEq

/-- `getCacheStats`: reports size and per-entry `{input, ticker, age}`; it
only reads the map (`Array.from(entries()).map`) and performs no eviction,
so the cache value is not part of the output. -/
def getCacheStats (cache : Cache) (now : Nat) : CacheStats :=
  { size := cache.length
    entries := cache.map fun p =>
      { input := p.1, ticker := p.2.data.ticker, age := (now : ℤ) - (p.2.timestamp : ℤ) } }

/-- `clearResolutionCache`. -/
def clearResolutionCache (cache : Cache) (normalizedInput : Option String) : Cache :=
  match normalizedInput with
  | none => []
  | some k => mapDelete cache k

/-- JS truthiness of an optional string (`undefined`/`null`/`""` are falsy). -/
def optTruthy : Option String → Bool
  | some s => s ≠ ""
  | none => false

/-- JS `a || d` for an optional string `a` and default `d`. -/
def jsOrOpt : Option String → String → String
  | some s, d => if s = "" then d else s
  | none, d => d

/-- `tryLocalMapping`: exact lookup in the catalog, honouring the optional
exchange filter (`if (exchange && result.exchange !== exchange) return null`). -/
def tryLocalMapping (normalizedInput : String) (exchange : Option String) : Option SymbolRec :=
  match assocLookup localTickerMapping normalizedInput with
  | none => none
  | some result =>
    if optTruthy exchange && decide (result.exchange ≠ jsOrOpt exchange "") then none
    else some
      { ticker := some result.ticker
        exchange := some result.exchange
        name := some normalizedInput
        confidence := result.confidence
        resolvedFrom := "local_cache" }

/-! ## External adapters -/

/-- One element of Finnhub's `data.result`.  `type` and `mic` mirror the
provider's JSON fields; absent fields are `none`. -/
structure FinnhubItem where
  symbol : String
  type : String
  mic : Option String
  description : Option String
deriving DecidableEq

/-- The possible behaviours of one Finnhub HTTP call, as observed by
`tryFinnhubLookup`: the fetch may throw, return a non-ok status, deliver a
body that fails to parse, or deliver a parsed `result` list (a missing
`result` field behaves like an empty list at the `data.result &&
data.result.length > 0` check). -/
inductive FinnhubResponse where
  | networkError
  | httpError (status : Nat)
  | malformedJson
  | ok (result : List FinnhubItem)

/-- One element of IEX Cloud's response array. -/
structure IexItem where
  symbol : String
  exchange : Option String
  name : Option String
deriving DecidableEq

/-- The possible behaviours of one IEX Cloud HTTP call (a non-array body
falls under `malformedJson` via the `Array.isArray` check). -/
inductive IexResponse where
  | networkError
  | httpError (status : Nat)
  | malformedJson
  | ok (data : List IexItem)

/-- Behaviour of the dynamic OpenAI fallback: the import/call may throw
(caught by the orchestrator), or produce `null`/a result object. -/
inductive AIResp where
  | threw
  | ok (result : Option SymbolRec)

/-- The process environment and network collaborators of one resolution
call: configured credentials, the providers' behaviour as a function of the
query string, and the clock (`Date.now()`). -/
structure Env where
  finnhubKey : Option String
  iexKey : Option String
  finnhub : String → FinnhubResponse
  iex : String → IexResponse
  openai : String → AIResp
  now : Nat

/-- `tryFinnhubLookup`: disabled without a credential; absorbs network
errors, bad statuses and malformed bodies (`try/catch` plus the `!ok`
check) into `none`; maps each result item to the common candidate shape
with fixed confidence 0.85. -/
def tryFinnhubLookup (env : Env) (input : String) : Option (List SymbolRec) :=
  if !optTruthy env.finnhubKey then none
  else
    match env.finnhub input with
    | .networkError => none
    | .httpError _ => none
    | .malformedJson => none
    | .ok result =>
      if result.length > 0 then
        some (result.map fun item =>
          { ticker := some item.symbol
            exchange := if item.type = "Common Stock" then some (jsOrOpt item.mic "NASDAQ") else item.mic
            name := some (jsOrOpt item.description item.symbol)
            confidence := 85/100
            resolvedFrom := "finnhub_api" })
      else none

/-- `tryIexCloudLookup`: same contract with fixed confidence 0.88. -/
def tryIexCloudLookup (env : Env) (input : String) : Option (List SymbolRec) :=
  if !optTruthy env.iexKey then none
  else
    match env.iex input with
    | .networkError => none
    | .httpError _ => none
    | .malformedJson => none
    | .ok data =>
      if data.length > 0 then
        some (data.map fun item =>
          { ticker := some item.symbol
            exchange := some (jsOrOpt item.exchange "UNKNOWN")
            name := some (jsOrOpt item.name item.symbol)
            confidence := 88/100
            resolvedFrom := "iex_cloud_api" })
      else none

/-! ## Sorting and fuzzy matching -/

/-- Stable insertion of a record into a confidence-descending list: the new
element goes after every element whose confidence is ≥ its own. -/
def insertByConfidenceDesc (a : SymbolRec) : List SymbolRec → List SymbolRec
  | [] => [a]
  | b :: bs =>
    if a.confidence ≤ b.confidence then b :: insertByConfidenceDesc a bs
    else a :: b :: bs

/-- `.sort((a, b) => b.confidence - a.confidence)`: JS `Array.prototype.sort`
is required to be stable, so its result is the unique stable
confidence-descending reordering, modelled by stable insertion sort. -/
def jsSortByConfidenceDesc (l : List SymbolRec) : List SymbolRec :=
  l.foldl (fun acc a => insertByConfidenceDesc a acc) []

/-- `Math.round` for the non-negative values arising here (round half up). -/
def jsRound (q : ℚ) : ℤ := ⌊q + 1/2⌋

/-- `Math.round(similarity * 100) / 100`. -/
def jsRound2 (q : ℚ) : ℚ := (jsRound (q * 100) : ℚ) / 100

/-- The similarity computed inline by `fuzzyMatchLocalTickers`:
`1 - distance/maxLen`.  Catalog keys are nonempty, so `maxLen > 0` at every
use site inside the matcher. -/
def similarityQ (a b : String) : ℚ :=
  1 - (levenshteinDistance a b : ℚ) / ((max a.length b.length : ℕ) : ℚ)

/-- The candidate record built by `fuzzyMatchLocalTickers` for a catalog
entry: confidence is the similarity rounded to two decimals. -/
def fuzzyRec (normalizedInput company : String) (info : TickerInfo) : SymbolRec :=
  { ticker := some info.ticker
    exchange := some info.exchange
    name := some company
    confidence := jsRound2 (similarityQ normalizedInput company)
    resolvedFrom := "fuzzy_match" }

/-- `fuzzyMatchLocalTickers`: scan the whole catalog, keep entries with
`similarity >= threshold` (the unrounded similarity), and sort the kept
candidates by their (rounded) confidence, descending. -/
def fuzzyMatchLocalTickers (normalizedInput : String) (threshold : ℚ) : List SymbolRec :=
  jsSortByConfidenceDesc
    (localTickerMapping.filterMap fun p =>
      if threshold ≤ similarityQ normalizedInput p.1 then
        some (fuzzyRec normalizedInput p.1 p.2)
      else none)

/-! ## The resolution orchestrator -/

/-- The options object of `resolveTickerOrCompanyName` with its defaults. -/
structure ResolveOptions where
  exchange : Option String := none
  provider : String := "auto"
  forceRefresh : Bool := false
deriving DecidableEq

/-- The external-API phase: Finnhub first (for `auto`/`finnhub`), IEX Cloud
if that produced nothing (for `auto`/`iex`), then the optional exchange
filter, which is dropped again if it would eliminate every candidate. -/
def apiCandidates (env : Env) (trimmedInput provider : String) (exchange : Option String) :
    List SymbolRec :=
  let a0 : List SymbolRec :=
    if provider = "auto" || provider = "finnhub" then
      match tryFinnhubLookup env trimmedInput with
      | some r => r
      | none => []
    else []
  let a1 :=
    if a0.length = 0 && (provider = "auto" || provider = "iex") then
      match tryIexCloudLookup env trimmedInput with
      | some r => r
      | none => a0
    else a0
  if optTruthy exchange && decide (a1.length > 0) then
    let filtered := a1.filter fun r => r.exchange = some (jsOrOpt exchange "")
    if filtered.length > 0 then filtered else a1
  else a1

/-- The body of `resolveTickerOrCompanyName` after input normalization; it
receives `normalizedInput` and `trimmedInput` exactly as the source computes
them from `input`.  Returns the result together with the updated cache. -/
def resolveWithKeys (env : Env) (cache : Cache) (normalizedInput trimmedInput : String)
    (options : ResolveOptions) : ResolutionResult × Cache :=
  if isTickerSymbol (jsToUpper trimmedInput) then
    ({ out := .single
        { ticker := some (jsToUpper trimmedInput)
          exchange := some (jsOrOpt options.exchange "UNKNOWN")
          name := none
          confidence := 1
          resolvedFrom := "input_detection" }
       telemetry :=
        { type := "ticker_resolution_detected_ticker", input := trimmedInput
          ticker := some (jsToUpper trimmedInput), resolvedFrom := some "input_detection" } },
     cache)
  else
    let readRes :=
      if options.forceRefresh then (none, cache)
      else getCachedResolution cache normalizedInput env.now
    let cache1 := readRes.2
    match readRes.1 with
    | some cached =>
      ({ out := .single cached
         telemetry :=
          { type := "ticker_resolution_cache_hit", input := trimmedInput, ticker := cached.ticker } },
       cache1)
    | none =>
      match tryLocalMapping normalizedInput options.exchange with
      | some localMatch =>
        ({ out := .single localMatch
           telemetry :=
            { type := "symbol_resolved", input := trimmedInput, ticker := localMatch.ticker
              confidence := some localMatch.confidence, resolvedFrom := some "local_cache" } },
         setCacheResolution cache1 normalizedInput localMatch env.now)
      | none =>
        match jsSortByConfidenceDesc (apiCandidates env trimmedInput options.provider options.exchange) with
        | topResult :: rest =>
          let cache2 := setCacheResolution cache1 normalizedInput topResult env.now
          if rest.isEmpty then
            ({ out := .single topResult
               telemetry :=
                { type := "symbol_resolved", input := trimmedInput, ticker := topResult.ticker
                  confidence := some topResult.confidence
                  resolvedFrom := some topResult.resolvedFrom } },
             cache2)
          else
            ({ out := .ambig (topResult :: rest) "api_search"
               telemetry :=
                { type := "symbol_ambiguous", input := trimmedInput
                  matchCount := some (topResult :: rest).length
                  candidates := ((topResult :: rest).take 3).map fun r => (r.ticker, r.confidence) } },
             cache2)
        | [] =>
          match fuzzyMatchLocalTickers normalizedInput (65/100) with
          | first :: frest =>
            if frest.isEmpty && decide ((85 : ℚ)/100 < first.confidence) then
              ({ out := .single first
                 telemetry :=
                  { type := "symbol_resolved", input := trimmedInput, ticker := first.ticker
                    confidence := some first.confidence, resolvedFrom := some "fuzzy_match" } },
               setCacheResolution cache1 normalizedInput first env.now)
            else
              ({ out := .ambig (first :: frest) "fuzzy_match"
                 telemetry :=
                  { type := "symbol_ambiguous", input := trimmedInput
                    matchCount := some (first :: frest).length
                    candidates := ((first :: frest).take 3).map fun r => (r.ticker, r.confidence) } },
               cache1)
          | [] =>
            let notFound : ResolutionResult × Cache :=
              ({ out := .single
                  { ticker := none, exchange := none, name := some trimmedInput
                    confidence := 0, resolvedFrom := "not_found" }
                 telemetry := { type := "symbol_not_found", input := trimmedInput } },
               cache1)
            match env.openai trimmedInput with
            | .ok (some aiResult) =>
              if optTruthy aiResult.ticker then
                ({ out := .single aiResult
                   telemetry :=
                    { type := "symbol_resolved", input := trimmedInput, ticker := aiResult.ticker
                      confidence := some aiResult.confidence, resolvedFrom := some "openai" } },
                 setCacheResolution cache1 normalizedInput aiResult env.now)
              else notFound
            | .ok none => notFound
            | .threw => notFound

/-- `resolveTickerOrCompanyName`: normalize, trim, then run the strategy
pipeline. -/
def resolveTickerOrCompanyName (env : Env) (cache : Cache) (input : String)
    (options : ResolveOptions) : ResolutionResult × Cache :=
  resolveWithKeys env cache (normalizeString input) (jsTrim input) options

/-! ## Concrete environments used by the evaluations -/

/-- An environment with no adapter credentials, failing providers and an AI
fallback that yields nothing, at clock 0. -/
def envOff : Env :=
  { finnhubKey := none
    iexKey := none
    finnhub := fun _ => .networkError
    iex := fun _ => .networkError
    openai := fun _ => .ok none
    now := 0 }

/-- An environment whose Finnhub adapter is configured and returns two
distinct candidates for every query. -/
def envTwoCandidates : Env :=
  { finnhubKey := some "key"
    iexKey := none
    finnhub := fun _ => .ok
      [⟨"ACME", "Common Stock", some "NYSE", some "Acme Corp"⟩,
       ⟨"ACMD", "Common Stock", some "NASDAQ", some "Acme Data"⟩]
    iex := fun _ => .networkError
    openai := fun _ => .ok none
    now := 0 }

/-! ## Auxiliary definitions for the verification -/

/-- The adapter-failure modes of a Finnhub call (everything
`tryFinnhubLookup` absorbs: a thrown fetch, a non-ok status, an unparsable
body). -/
def finnhubFailed : FinnhubResponse → Prop
  | .networkError => True
  | .httpError _ => True
  | .malformedJson => True
  | .ok _ => False

/-- The adapter-failure modes of an IEX Cloud call. -/
def iexFailed : IexResponse → Prop
  | .networkError => True
  | .httpError _ => True
  | .malformedJson => True
  | .ok _ => False

/-- The AI fallback produced nothing usable: it threw (and was caught),
returned `null`, or returned a record whose `ticker` is falsy. -/
def aiNoResult : AIResp → Prop
  | .threw => True
  | .ok none => True
  | .ok (some r) => optTruthy r.ticker = false

/-- The five telemetry event types a resolution can exit with. -/
def telemetryTypes : List String :=
  ["ticker_resolution_detected_ticker", "ticker_resolution_cache_hit",
   "symbol_resolved", "symbol_ambiguous", "symbol_not_found"]

/-- A sample resolution record, used to prime caches in the evaluations. -/
def recNVDA : SymbolRec :=
  { ticker := some "NVDA", exchange := some "NASDAQ", name := some "nvidia"
    confidence := 99/100, resolvedFrom := "local_cache" }

/-- The candidate `tryFinnhubLookup` builds from `envTwoCandidates`' first
item. -/
def recACME : SymbolRec :=
  { ticker := some "ACME", exchange := some "NYSE", name := some "Acme Corp"
    confidence := 85/100, resolvedFrom := "finnhub_api" }

/-- The candidate built from `envTwoCandidates`' second item. -/
def recACMD : SymbolRec :=
  { ticker := some "ACMD", exchange := some "NASDAQ", name := some "Acme Data"
    confidence := 85/100, resolvedFrom := "finnhub_api" }

/-- A cache holding one entry for key "qx1" stored at time 0; read at
`CACHE_TTL_MS` or later it is expired. -/
def cacheExpired : Cache := [("qx1", ⟨recNVDA, 0⟩)]

/-! ## Sanity checks of the embedding on concrete values -/

theorem levenshteinDistance_example : levenshteinDistance "kitten" "sitting" = 3 := by decide

theorem levenshteinDistance_nil :
    levenshteinDistance "" "abc" = 3 ∧ levenshteinDistance "abc" "" = 3 := by decide

theorem normalizeString_example : normalizeString "  Nvidia, Inc.  " = "nvidiainc" := by decide

theorem resolve_direct_ticker_example :
    (resolveTickerOrCompanyName envOff [] "NVDA" {}).1.out = .single
      { ticker := some "NVDA", exchange := some "UNKNOWN", name := none
        confidence := 1, resolvedFrom := "input_detection" } := by decide

theorem resolve_catalog_example :
    (resolveTickerOrCompanyName envOff [] "Microsoft" {}).1.out = .single
      { ticker := some "MSFT", exchange := some "NASDAQ", name := some "microsoft"
        confidence := 99/100, resolvedFrom := "local_cache" } := by decide

set_option maxHeartbeats 4000000 in
set_option maxRecDepth 100000 in
theorem resolve_fuzzy_example :
    (resolveTickerOrCompanyName envOff [] "Nvidia, Inc." {}).1.out = .ambig
      [{ ticker := some "NVDA", exchange := some "NASDAQ", name := some "nvidia"
         confidence := 67/100, resolvedFrom := "fuzzy_match" }] "fuzzy_match" := by decide

/-! ## Helper lemmas: cache map operations -/

theorem assocLookup_mapSet_self (m : Cache) (k : String) (v : CacheEntry) :
    assocLookup (mapSet m k v) k = some v := by
  induction m with
  | nil => simp [mapSet, assocLookup]
  | cons p rest ih =>
    obtain ⟨k', v'⟩ := p
    by_cases h : k' = k
    · simp [mapSet, h, assocLookup]
    · simp [mapSet, h, assocLookup, ih]

theorem assocLookup_mapDelete_self (m : Cache) (k : String) :
    assocLookup (mapDelete m k) k = none := by
  induction m with
  | nil => simp [mapDelete, assocLookup]
  | cons p rest ih =>
    obtain ⟨k', v'⟩ := p
    by_cases h : k' = k
    · simpa [mapDelete, List.filter_cons, h] using ih
    · simpa [mapDelete, List.filter_cons, h, assocLookup] using ih

/-! ## Helper lemmas: the stable confidence sort -/

theorem mem_insertByConfidenceDesc {x a : SymbolRec} {l : List SymbolRec} :
    x ∈ insertByConfidenceDesc a l ↔ x = a ∨ x ∈ l := by
  induction l with
  | nil => simp [insertByConfidenceDesc]
  | cons b bs ih =>
    by_cases h : a.confidence ≤ b.confidence
    · simp only [insertByConfidenceDesc, if_pos h, List.mem_cons, ih]
      tauto
    · simp only [insertByConfidenceDesc, if_neg h, List.mem_cons]

theorem pairwise_insertByConfidenceDesc {a : SymbolRec} {l : List SymbolRec}
    (h : l.Pairwise fun x y => y.confidence ≤ x.confidence) :
    (insertByConfidenceDesc a l).Pairwise fun x y => y.confidence ≤ x.confidence := by
  induction l with
  | nil => simp [insertByConfidenceDesc]
  | cons b bs ih =>
    rcases List.pairwise_cons.1 h with ⟨hb, hbs⟩
    by_cases hc : a.confidence ≤ b.confidence
    · simp only [insertByConfidenceDesc, if_pos hc]
      refine List.pairwise_cons.2 ⟨?_, ih hbs⟩
      intro y hy
      rcases mem_insertByConfidenceDesc.1 hy with rfl | hmem
      · exact hc
      · exact hb y hmem
    · simp only [insertByConfidenceDesc, if_neg hc]
      refine List.pairwise_cons.2 ⟨?_, h⟩
      intro y hy
      rcases List.mem_cons.1 hy with rfl | hmem
      · exact le_of_not_le hc
      · exact le_trans (hb y hmem) (le_of_not_le hc)

theorem mem_jsSortByConfidenceDesc {x : SymbolRec} {l : List SymbolRec} :
    x ∈ jsSortByConfidenceDesc l ↔ x ∈ l := by
  have aux : ∀ (l acc : List SymbolRec) (x : SymbolRec),
      x ∈ l.foldl (fun acc a => insertByConfidenceDesc a acc) acc ↔ x ∈ acc ∨ x ∈ l := by
    intro l
    induction l with
    | nil => simp
    | cons a as ih =>
      intro acc x
      rw [List.foldl_cons, ih, mem_insertByConfidenceDesc]
      simp only [List.mem_cons]
      tauto
  unfold jsSortByConfidenceDesc
  rw [aux]
  simp

theorem pairwise_jsSortByConfidenceDesc (l : List SymbolRec) :
    (jsSortByConfidenceDesc l).Pairwise fun x y => y.confidence ≤ x.confidence := by
  have aux : ∀ (l acc : List SymbolRec),
      acc.Pairwise (fun x y => y.confidence ≤ x.confidence) →
      (l.foldl (fun acc a => insertByConfidenceDesc a acc) acc).Pairwise
        fun x y => y.confidence ≤ x.confidence := by
    intro l
    induction l with
    | nil => intro acc h; exact h
    | cons a as ih =>
      intro acc h
      exact ih _ (pairwise_insertByConfidenceDesc h)
  exact aux l [] (by simp)

/-! ## Claims -/

/-- C4: the claim says `isTickerSymbol` accepts exactly 1–5 uppercase
letters optionally followed by a dot and 1–2 uppercase letters, so that six
or seven plain uppercase letters are rejected.  The source regex
`^[A-Z]{1,5}(\.?[A-Z]{1,2})?$` makes the dot itself optional inside the
suffix group, so 6- and 7-letter dotless strings are accepted — contradicting
the repository's own `isValidTickerFormat` (mandatory dot) and the docs'
"1-5 alpha characters".  This theorem evaluates the predicate at the failing
inputs. -/
theorem C4_ticker_shape_bug :
    isTickerSymbol "NVIDIA" = true ∧
    isTickerSymbol "NVIDIAX" = true ∧
    isTickerSymbol "ABCDEFGH" = false ∧
    isTickerSymbol "BRK.B" = true ∧
    isTickerSymbol "MSFT" = true ∧
    isValidTickerFormat "NVIDIA" = false ∧
    isValidTickerFormat "BRK.B" = true := by decide

/-- C9: the claim says `similarity("", "")` degenerates to 1.0 because the
divide-by-zero is guarded.  The source has no guard: `maxLen = 0` makes it
compute `1 - 0/0 = NaN` (modelled as `none`), not 1.0.  On nonempty input
the formula is as claimed. -/
theorem C9_empty_similarity_is_nan :
    calculateSimilarity "" "" = none ∧
    calculateSimilarity "nvidia" "nvidia" = some 1 ∧
    calculateSimilarity "nvidia" "nvida" = some (5/6) := by decide

/-- C1: the claim says `resolve("NVIDIA")` is a catalog hit returning
`{ticker: "NVDA", resolvedFrom: "local_cache", confidence 0.99}`.  Because
the `isTickerSymbol` regex accepts six plain letters (C4), the code instead
short-circuits at input detection and returns `{ticker: "NVIDIA",
resolvedFrom: "input_detection", confidence 1.0}` without touching cache or
catalog — even though the catalog lookup for the normalized key would
succeed, as the second conjunct shows. -/
theorem C1_nvidia_resolves_by_input_detection :
    resolveTickerOrCompanyName envOff [] "NVIDIA" {} =
      ({ out := .single
          { ticker := some "NVIDIA", exchange := some "UNKNOWN", name := none
            confidence := 1, resolvedFrom := "input_detection" }
         telemetry :=
          { type := "ticker_resolution_detected_ticker", input := "NVIDIA"
            ticker := some "NVIDIA", resolvedFrom := some "input_detection" } }, []) ∧
    tryLocalMapping (normalizeString "NVIDIA") none = some
      { ticker := some "NVDA", exchange := some "NASDAQ", name := some "nvidia"
        confidence := 99/100, resolvedFrom := "local_cache" } := by decide

/-- C2, counterexample: "NVDA" and "N.V.D.A." normalize to the same key
`"nvda"`, yet against the same (empty) cache and the same environment the
first resolves by input detection (confidence 1, exchange "UNKNOWN") and the
second by catalog lookup (confidence 0.99, exchange "NASDAQ") — the results
differ, refuting the claim (timestamps are not part of the model). -/
theorem C2_counterexample_normalize_not_sufficient :
    normalizeString "NVDA" = normalizeString "N.V.D.A." ∧
    (resolveTickerOrCompanyName envOff [] "NVDA" {}).1 ≠
      (resolveTickerOrCompanyName envOff [] "N.V.D.A." {}).1 := by decide

/-- C2, amended: resolution is determined by the *trimmed* input (the
pipeline reads its input only through `trim` — ticker detection and the
adapter queries use the trimmed string, and normalization factors through
it), so equal trimmed inputs give identical results; equal normalized keys
alone do not suffice. -/
theorem C2_amended_trim_determines_resolution (env : Env) (cache : Cache)
    (s1 s2 : String) (opts : ResolveOptions) (h : jsTrim s1 = jsTrim s2) :
    resolveTickerOrCompanyName env cache s1 opts =
      resolveTickerOrCompanyName env cache s2 opts := by
  have hn : normalizeString s1 = normalizeString s2 := by
    unfold normalizeString
    rw [h]
  unfold resolveTickerOrCompanyName
  rw [h, hn]

/-- C2, amended, witness at a concrete input pair. -/
theorem C2_amended_witness :
    resolveTickerOrCompanyName envOff [] " NVDA" {} =
      resolveTickerOrCompanyName envOff [] "NVDA  " {} :=
  C2_amended_trim_determines_resolution envOff [] " NVDA" "NVDA  " {} (by decide)

/-- C5: cache-read semantics.  After `set` at time `T`, a read at `T'` with
`T' - T < 24h` returns the stored record and leaves the cache unchanged,
and a read with `T' - T ≥ 24h` returns absent and evicts the entry as part
of the read (a subsequent lookup finds nothing). -/
theorem C5_cache_ttl_read (cache : Cache) (k : String) (r : SymbolRec) (T Tr : Nat)
    (h : T ≤ Tr) :
    (Tr - T < CACHE_TTL_MS →
      getCachedResolution (setCacheResolution cache k r T) k Tr =
        (some r, setCacheResolution cache k r T)) ∧
    (CACHE_TTL_MS ≤ Tr - T →
      getCachedResolution (setCacheResolution cache k r T) k Tr =
        (none, mapDelete (setCacheResolution cache k r T) k) ∧
      assocLookup (getCachedResolution (setCacheResolution cache k r T) k Tr).2 k = none) := by
  have hl : assocLookup (setCacheResolution cache k r T) k = some ⟨r, T⟩ :=
    assocLookup_mapSet_self cache k ⟨r, T⟩
  constructor
  · intro hfresh
    have hz : (Tr : ℤ) - (T : ℤ) < (CACHE_TTL_MS : ℤ) := by omega
    unfold getCachedResolution
    rw [hl]
    simp [hz]
  · intro hstale
    have hz : ¬ ((Tr : ℤ) - (T : ℤ) < (CACHE_TTL_MS : ℤ)) := by omega
    unfold getCachedResolution
    rw [hl]
    simp [hz, assocLookup_mapDelete_self]

/-- C5, witness: a concrete set at time 0 read at time 1 (fresh) and at
exactly the TTL (expired and evicted). -/
theorem C5_cache_ttl_read_witness :
    getCachedResolution (setCacheResolution [] "nvidia" recNVDA 0) "nvidia" 1 =
      (some recNVDA, setCacheResolution [] "nvidia" recNVDA 0) ∧
    getCachedResolution (setCacheResolution [] "nvidia" recNVDA 0) "nvidia" CACHE_TTL_MS =
      (none, mapDelete (setCacheResolution [] "nvidia" recNVDA 0) "nvidia") :=
  ⟨(C5_cache_ttl_read [] "nvidia" recNVDA 0 1 (by decide)).1 (by decide),
   ((C5_cache_ttl_read [] "nvidia" recNVDA 0 CACHE_TTL_MS (by decide)).2 (by decide)).1⟩

/-- C10: `getCacheStats` only reads the cache (in the model it does not even
return one), counts every stored entry — also one whose age is at or past
the TTL — and lists it with its age, even though a cache *lookup* for that
same key would return absent and evict it. -/
theorem C10_stats_include_expired (cache : Cache) (now : Nat) (k : String) (e : CacheEntry)
    (hmem : (k, e) ∈ cache) (hexp : (CACHE_TTL_MS : ℤ) ≤ (now : ℤ) - (e.timestamp : ℤ)) :
    (getCacheStats cache now).size = cache.length ∧
    ({ input := k, ticker := e.data.ticker, age := (now : ℤ) - (e.timestamp : ℤ) }
        : CacheStatsEntry) ∈ (getCacheStats cache now).entries ∧
    (assocLookup cache k = some e →
      getCachedResolution cache k now = (none, mapDelete cache k)) := by
  refine ⟨by simp [getCacheStats], ?_, ?_⟩
  · unfold getCacheStats
    exact List.mem_map_of_mem _ hmem
  · intro hl
    have hz : ¬ ((now : ℤ) - (e.timestamp : ℤ) < (CACHE_TTL_MS : ℤ)) := by omega
    unfold getCachedResolution
    rw [hl]
    simp [hz]

/-- C10, witness at a concrete expired cache. -/
theorem C10_stats_include_expired_witness :
    (getCacheStats cacheExpired CACHE_TTL_MS).size = cacheExpired.length ∧
    ({ input := "qx1", ticker := (⟨recNVDA, 0⟩ : CacheEntry).data.ticker
       age := (CACHE_TTL_MS : ℤ) - ((⟨recNVDA, 0⟩ : CacheEntry).timestamp : ℤ) }
        : CacheStatsEntry) ∈ (getCacheStats cacheExpired CACHE_TTL_MS).entries ∧
    (assocLookup cacheExpired "qx1" = some ⟨recNVDA, 0⟩ →
      getCachedResolution cacheExpired "qx1" CACHE_TTL_MS = (none, mapDelete cacheExpired "qx1")) :=
  C10_stats_include_expired cacheExpired CACHE_TTL_MS "qx1" ⟨recNVDA, 0⟩ (by decide) (by decide)

set_option maxHeartbeats 4000000 in
set_option maxRecDepth 100000 in
/-- C6, counterexample: the claim says `cacheStats().size` is unchanged by a
not-found resolution.  Prime the cache with one *expired* entry under the
queried key and resolve at `now = CACHE_TTL_MS`: the pipeline falls through
to not-found, but the cache-read step lazily evicted the expired entry, so
the size drops from 1 to 0. -/
theorem C6_counterexample_eviction_changes_size :
    (resolveTickerOrCompanyName { envOff with now := CACHE_TTL_MS } cacheExpired "qx1" {}).1 =
      { out := .single { ticker := none, exchange := none, name := some "qx1"
                         confidence := 0, resolvedFrom := "not_found" }
        telemetry := { type := "symbol_not_found", input := "qx1" } } ∧
    (getCacheStats cacheExpired CACHE_TTL_MS).size = 1 ∧
    (getCacheStats
      (resolveTickerOrCompanyName { envOff with now := CACHE_TTL_MS } cacheExpired "qx1" {}).2
      CACHE_TTL_MS).size = 0 := by decide

/-- C6, amended: when every strategy is exhausted the orchestrator returns
exactly `{ticker: null, confidence: 0, resolvedFrom: "not_found"}` with
`symbol_not_found` telemetry and performs no cache *write*: the final cache
is precisely the one left by the cache-read step, so the reported size is
unchanged whenever that read did not evict an expired entry for the key
(it shrinks by one when it did). -/
theorem C6_amended_not_found_no_write (env : Env) (cache : Cache) (input : String)
    (opts : ResolveOptions)
    (h1 : isTickerSymbol (jsToUpper (jsTrim input)) = false)
    (h2 : (if opts.forceRefresh then ((none : Option SymbolRec), cache)
           else getCachedResolution cache (normalizeString input) env.now).1 = none)
    (h3 : tryLocalMapping (normalizeString input) opts.exchange = none)
    (h4 : apiCandidates env (jsTrim input) opts.provider opts.exchange = [])
    (h5 : fuzzyMatchLocalTickers (normalizeString input) (65/100) = [])
    (h6 : aiNoResult (env.openai (jsTrim input))) :
    resolveTickerOrCompanyName env cache input opts =
      ({ out := .single { ticker := none, exchange := none, name := some (jsTrim input)
                          confidence := 0, resolvedFrom := "not_found" }
         telemetry := { type := "symbol_not_found", input := jsTrim input } },
       (if opts.forceRefresh then ((none : Option SymbolRec), cache)
        else getCachedResolution cache (normalizeString input) env.now).2) ∧
    ((if opts.forceRefresh then ((none : Option SymbolRec), cache)
      else getCachedResolution cache (normalizeString input) env.now).2 = cache →
      (getCacheStats (resolveTickerOrCompanyName env cache input opts).2 env.now).size =
        (getCacheStats cache env.now).size) := by
  have hmain : resolveTickerOrCompanyName env cache input opts =
      ({ out := .single { ticker := none, exchange := none, name := some (jsTrim input)
                          confidence := 0, resolvedFrom := "not_found" }
         telemetry := { type := "symbol_not_found", input := jsTrim input } },
       (if opts.forceRefresh then ((none : Option SymbolRec), cache)
        else getCachedResolution cache (normalizeString input) env.now).2) := by
    unfold resolveTickerOrCompanyName resolveWithKeys
    simp only [h1, Bool.false_eq_true, if_false, h2, h3, h4, h5,
      jsSortByConfidenceDesc, List.foldl_nil]
    cases hai : env.openai (jsTrim input) with
    | threw => simp
    | ok r =>
      cases r with
      | none => simp
      | some airec =>
        rw [hai] at h6
        simp only [aiNoResult] at h6
        simp [h6]
  refine ⟨hmain, fun hcc => ?_⟩
  rw [hmain, hcc]

set_option maxHeartbeats 4000000 in
set_option maxRecDepth 100000 in
/-- C6, amended, witness: a cold call for an unknown key against the empty
cache, with all adapters disabled, at a concrete clock. -/
theorem C6_amended_not_found_no_write_witness :
    resolveTickerOrCompanyName envOff [] "qx1" {} =
      ({ out := .single { ticker := none, exchange := none, name := some (jsTrim "qx1")
                          confidence := 0, resolvedFrom := "not_found" }
         telemetry := { type := "symbol_not_found", input := jsTrim "qx1" } },
       (if ({} : ResolveOptions).forceRefresh then ((none : Option SymbolRec), ([] : Cache))
        else getCachedResolution [] (normalizeString "qx1") envOff.now).2) ∧
    ((if ({} : ResolveOptions).forceRefresh then ((none : Option SymbolRec), ([] : Cache))
      else getCachedResolution [] (normalizeString "qx1") envOff.now).2 = [] →
      (getCacheStats (resolveTickerOrCompanyName envOff [] "qx1" {}).2 envOff.now).size =
        (getCacheStats [] envOff.now).size) :=
  C6_amended_not_found_no_write envOff [] "qx1" {} (by decide) (by decide) (by decide)
    (by decide) (by decide) (by exact trivial)

/-- C3, counterexample: the claim says an ambiguous adapter outcome performs
no cache write and a repeat call runs the adapters again.  With a Finnhub
adapter returning two candidates, the call returns the ambiguous result but
*does* write the top candidate to the cache (the write happens before the
one-vs-many branch), and an identical second call is a cache hit returning
that single top candidate. -/
theorem C3_counterexample_ambiguous_writes_cache :
    (resolveTickerOrCompanyName envTwoCandidates [] "acme search co" {}).1.out =
      .ambig [recACME, recACMD] "api_search" ∧
    (resolveTickerOrCompanyName envTwoCandidates [] "acme search co" {}).1.telemetry.type =
      "symbol_ambiguous" ∧
    (resolveTickerOrCompanyName envTwoCandidates [] "acme search co" {}).2 =
      [("acmesearchco", ⟨recACME, 0⟩)] ∧
    (resolveTickerOrCompanyName envTwoCandidates
        (resolveTickerOrCompanyName envTwoCandidates [] "acme search co" {}).2
        "acme search co" {}).1 =
      { out := .single recACME
        telemetry := { type := "ticker_resolution_cache_hit", input := "acme search co"
                       ticker := recACME.ticker } } := by decide

/-- C3, amended: when the adapter step yields more than one candidate the
orchestrator returns the ambiguous result with `symbol_ambiguous` telemetry
(up to 3 candidate summaries), but it *first writes the top-confidence
candidate to the cache*, so a subsequent identical call within the TTL is a
cache hit instead of repeating the adapter lookups.  (Only the fuzzy-match
ambiguous path skips the write.) -/
theorem C3_amended_ambiguous_caches_top (env : Env) (cache : Cache) (input : String)
    (opts : ResolveOptions) (top next : SymbolRec) (rest : List SymbolRec)
    (h1 : isTickerSymbol (jsToUpper (jsTrim input)) = false)
    (h2 : (if opts.forceRefresh then ((none : Option SymbolRec), cache)
           else getCachedResolution cache (normalizeString input) env.now).1 = none)
    (h3 : tryLocalMapping (normalizeString input) opts.exchange = none)
    (h4 : jsSortByConfidenceDesc (apiCandidates env (jsTrim input) opts.provider opts.exchange) =
          top :: next :: rest) :
    resolveTickerOrCompanyName env cache input opts =
      ({ out := .ambig (top :: next :: rest) "api_search"
         telemetry :=
          { type := "symbol_ambiguous", input := jsTrim input
            matchCount := some (top :: next :: rest).length
            candidates := ((top :: next :: rest).take 3).map fun r => (r.ticker, r.confidence) } },
       setCacheResolution
         (if opts.forceRefresh then ((none : Option SymbolRec), cache)
          else getCachedResolution cache (normalizeString input) env.now).2
         (normalizeString input) top env.now) := by
  unfold resolveTickerOrCompanyName resolveWithKeys
  simp only [h1, Bool.false_eq_true, if_false, h2, h3, h4]
  simp

/-- C3, amended, witness at the two-candidate environment. -/
theorem C3_amended_ambiguous_caches_top_witness :
    resolveTickerOrCompanyName envTwoCandidates [] "acme search co" {} =
      ({ out := .ambig (recACME :: recACMD :: []) "api_search"
         telemetry :=
          { type := "symbol_ambiguous", input := jsTrim "acme search co"
            matchCount := some (recACME :: recACMD :: ([] : List SymbolRec)).length
            candidates := ((recACME :: recACMD :: ([] : List SymbolRec)).take 3).map
              fun r => (r.ticker, r.confidence) } },
       setCacheResolution
         (if ({} : ResolveOptions).forceRefresh then ((none : Option SymbolRec), ([] : Cache))
          else getCachedResolution [] (normalizeString "acme search co") envTwoCandidates.now).2
         (normalizeString "acme search co") recACME envTwoCandidates.now) :=
  C3_amended_ambiguous_caches_top envTwoCandidates [] "acme search co" {} recACME recACMD []
    (by decide) (by decide) (by decide) (by decide)

/-- C7: all runtime resolution outcomes are values.  (a) Every call of the
orchestrator returns a result tagged with one of the five terminal telemetry
types — there is no other exit.  (b) The adapters absorb a missing
credential and every failure mode (thrown fetch, bad status, malformed body)
into `none`.  (c) At the orchestrator level a Finnhub adapter that always
fails is indistinguishable from one that returns no results, and an AI
fallback that throws is indistinguishable from one returning `null` — no
exception escapes to the caller. -/
theorem C7_no_exceptions :
    (∀ (env : Env) (cache : Cache) (input : String) (opts : ResolveOptions),
      (resolveTickerOrCompanyName env cache input opts).1.telemetry.type ∈ telemetryTypes) ∧
    (∀ (env : Env) (input : String), env.finnhubKey = none → tryFinnhubLookup env input = none) ∧
    (∀ (env : Env) (input : String), finnhubFailed (env.finnhub input) →
      tryFinnhubLookup env input = none) ∧
    (∀ (env : Env) (input : String), env.iexKey = none → tryIexCloudLookup env input = none) ∧
    (∀ (env : Env) (input : String), iexFailed (env.iex input) →
      tryIexCloudLookup env input = none) ∧
    (∀ (env : Env) (cache : Cache) (input : String) (opts : ResolveOptions)
        (f : String → FinnhubResponse), (∀ q, finnhubFailed (f q)) →
      resolveTickerOrCompanyName { env with finnhub := f } cache input opts =
        resolveTickerOrCompanyName { env with finnhub := fun _ => .ok [] } cache input opts) ∧
    (∀ (env : Env) (cache : Cache) (input : String) (opts : ResolveOptions),
      resolveTickerOrCompanyName { env with openai := fun _ => .threw } cache input opts =
        resolveTickerOrCompanyName { env with openai := fun _ => .ok none } cache input opts) := by
  refine ⟨?_, ?_, ?_, ?_, ?_, ?_, ?_⟩
  · intro env cache input opts
    unfold resolveTickerOrCompanyName resolveWithKeys
    split
    · simp [telemetryTypes]
    · split
      · -- forceRefresh = true: the read is (none, cache) and the match reduces
        dsimp only
        split
        · simp [telemetryTypes]
        · split
          · split
            · simp [telemetryTypes]
            · simp [telemetryTypes]
          · split
            · split
              · simp [telemetryTypes]
              · simp [telemetryTypes]
            · split
              · split
                · simp [telemetryTypes]
                · simp [telemetryTypes]
              · simp [telemetryTypes]
              · simp [telemetryTypes]
      · -- real cache read: generalize the read pair, then case on the hit
        generalize (getCachedResolution cache (normalizeString input) env.now) = rr
        obtain ⟨ro, rc⟩ := rr
        rcases ro with _ | cached
        · dsimp only
          split
          · simp [telemetryTypes]
          · split
            · split
              · simp [telemetryTypes]
              · simp [telemetryTypes]
            · split
              · split
                · simp [telemetryTypes]
                · simp [telemetryTypes]
              · split
                · split
                  · simp [telemetryTypes]
                  · simp [telemetryTypes]
                · simp [telemetryTypes]
                · simp [telemetryTypes]
        · simp [telemetryTypes]
  · intro env input hk
    unfold tryFinnhubLookup
    simp [hk, optTruthy]
  · intro env input hf
    unfold tryFinnhubLookup
    cases hk : optTruthy env.finnhubKey
    · simp
    · simp only [hk, Bool.not_true, Bool.false_eq_true, if_false]
      cases hq : env.finnhub input with
      | networkError => rfl
      | httpError s => rfl
      | malformedJson => rfl
      | ok items =>
        rw [hq] at hf
        exact absurd hf (by simp [finnhubFailed])
  · intro env input hk
    unfold tryIexCloudLookup
    simp [hk, optTruthy]
  · intro env input hf
    unfold tryIexCloudLookup
    cases hk : optTruthy env.iexKey
    · simp
    · simp only [hk, Bool.not_true, Bool.false_eq_true, if_false]
      cases hq : env.iex input with
      | networkError => rfl
      | httpError s => rfl
      | malformedJson => rfl
      | ok items =>
        rw [hq] at hf
        exact absurd hf (by simp [iexFailed])
  · intro env cache input opts f hf
    have h1 : ∀ t, tryFinnhubLookup { env with finnhub := f } t = none := by
      intro t
      unfold tryFinnhubLookup
      cases hk : optTruthy env.finnhubKey
      · simp [hk]
      · simp only [hk, Bool.not_true, Bool.false_eq_true, if_false]
        cases hq : f t with
        | networkError => rfl
        | httpError s => rfl
        | malformedJson => rfl
        | ok items =>
          have hft := hf t
          rw [hq] at hft
          exact absurd hft (by simp [finnhubFailed])
    have h2 : ∀ t, tryFinnhubLookup { env with finnhub := fun _ => FinnhubResponse.ok [] } t
        = none := by
      intro t
      unfold tryFinnhubLookup
      cases hk : optTruthy env.finnhubKey
      · simp [hk]
      · simp [hk]
    have happ : ∀ t, apiCandidates { env with finnhub := f } t opts.provider opts.exchange =
        apiCandidates { env with finnhub := fun _ => .ok [] } t opts.provider opts.exchange := by
      intro t
      unfold apiCandidates
      rw [h1 t, h2 t]
      rfl
    unfold resolveTickerOrCompanyName resolveWithKeys
    rw [happ]
  · intro env cache input opts
    rfl

set_option maxHeartbeats 8000000 in
set_option maxRecDepth 200000 in
/-- C8, counterexample: for the input `"cipoftcorporation"` the fuzzy
matcher keeps three catalog entries (similarities 12/17 ≈ 0.7059 for
"apple corporation", 5/7 ≈ 0.7143 for "microsoft corporation", 2/3 for
"nvidia corporation").  Both 12/17 and 5/7 round to the stored confidence
0.71, and the stable sort by that rounded confidence keeps catalog order,
so the returned list puts "apple corporation" *before* the strictly more
similar "microsoft corporation" — it is not sorted in descending order of
similarity. -/
theorem C8_counterexample_rounded_sort_inversion :
    (fuzzyMatchLocalTickers "cipoftcorporation" (65/100)).map
        (fun r => (r.name, r.confidence)) =
      [(some "apple corporation", 71/100), (some "microsoft corporation", 71/100),
       (some "nvidia corporation", 67/100)] ∧
    similarityQ "cipoftcorporation" "apple corporation" <
      similarityQ "cipoftcorporation" "microsoft corporation" := by decide

/-- C8, amended: the fuzzy matcher keeps exactly the catalog entries whose
*unrounded* similarity is ≥ the threshold (so similarity exactly 0.65 is
kept at the default threshold and anything below is excluded), and returns
them sorted in descending order of their stored confidence — the similarity
rounded to the nearest hundredth — with ties in that rounded value keeping
catalog order, which can place two candidates out of exact-similarity
order. -/
theorem C8_amended_fuzzy_filter_and_sort (inp : String) (thr : ℚ) :
    (∀ r : SymbolRec, r ∈ fuzzyMatchLocalTickers inp thr ↔
      ∃ p, p ∈ localTickerMapping ∧ thr ≤ similarityQ inp p.1 ∧ r = fuzzyRec inp p.1 p.2) ∧
    (fuzzyMatchLocalTickers inp thr).Pairwise fun a b => b.confidence ≤ a.confidence := by
  constructor
  · intro r
    unfold fuzzyMatchLocalTickers
    rw [mem_jsSortByConfidenceDesc, List.mem_filterMap]
    constructor
    · rintro ⟨p, hp, hf⟩
      by_cases hthr : thr ≤ similarityQ inp p.1
      · rw [if_pos hthr] at hf
        exact ⟨p, hp, hthr, (Option.some_inj.1 hf).symm⟩
      · rw [if_neg hthr] at hf
        cases hf
    · rintro ⟨p, hp, hthr, rfl⟩
      exact ⟨p, hp, by rw [if_pos hthr]⟩
  · exact pairwise_jsSortByConfidenceDesc _
